import Mathlib

/-!
Verification of the Elasticsearch MCP server (src/index.ts) against its
natural-language specification.

The embedding models the three tool handlers registered in
`createElasticsearchMcpServer`:
  * `list_indices` (src/index.ts lines 97-151): single-slot, time-expiring
    cache of index summaries;
  * `get_mappings` (lines 154-204): direct mapping retrieval;
  * `search` (lines 208-261): request merge, backend call, result
    normalization.

JavaScript values appearing in query bodies and backend responses are
modelled by an inductive `Json` type (numbers as `Int`: every number the
claims touch is integral).  JavaScript truthiness, object-literal key
assignment (later assignments override earlier ones) and the optional
chaining / `||` defaulting used by the source are modelled explicitly.
The backend (`esClient`) is an external collaborator: each handler takes
the outcome of its backend call as an `Except String _` argument, and the
dispatch wrappers record whether the backend was invoked at all.
-/

set_option autoImplicit false

namespace ESMcp

/-- JSON values (JavaScript numbers restricted to integers, which covers
every value the source's claims involve). -/
inductive Json where
  | null : Json
  | bool (b : Bool) : Json
  | num (n : Int) : Json
  | str (s : String) : Json
  | arr (elems : List Json) : Json
  | obj (fields : List (String × Json)) : Json

/-- JavaScript truthiness of a JSON value: `null`, `false`, `0` and `""`
are falsy; every array and object (even empty) is truthy. -/
def Json.truthy : Json → Bool
  | .null => false
  | .bool b => b
  | .num n => n != 0
  | .str s => s != ""
  | .arr _ => true
  | .obj _ => true

mutual

/-- Models `JSON.stringify` on the modelled values (whitespace convention
fixed here as `", "` / `": "` separators; the source passes `null, 2` for
pretty-printing, which only changes whitespace and is irrelevant to every
claim).  String escaping is omitted: no claim involves a string needing
escapes. -/
def Json.stringify : Json → String
  | .null => "null"
  | .bool b => if b then "true" else "false"
  | .num n => toString n
  | .str s => "\"" ++ s ++ "\""
  | .arr elems => "[" ++ Json.stringifyElems elems ++ "]"
  | .obj fields => "\x7b" ++ Json.stringifyFields fields ++ "\x7d"

def Json.stringifyElems : List Json → String
  | [] => ""
  | [x] => Json.stringify x
  | x :: y :: rest => Json.stringify x ++ ", " ++ Json.stringifyElems (y :: rest)

def Json.stringifyFields : List (String × Json) → String
  | [] => ""
  | [(k, v)] => "\"" ++ k ++ "\": " ++ Json.stringify v
  | (k, v) :: p :: rest =>
      "\"" ++ k ++ "\": " ++ Json.stringify v ++ ", " ++ Json.stringifyFields (p :: rest)

end

/-- JavaScript string coercion as performed by template-literal
interpolation, for the values the source interpolates. -/
def Json.jsToString : Json → String
  | .null => "null"
  | .bool b => if b then "true" else "false"
  | .num n => toString n
  | .str s => s
  | .arr _ => ""
  | .obj _ => "[object Object]"

/-- JavaScript/zod string trimming (`z.string().trim()`, also
`String.prototype.trim`): strip leading and trailing whitespace.
(Defined by structural recursion so that it evaluates; the standard
library's `String.trim` is defined by well-founded recursion on byte
positions and does not reduce definitionally.) -/
def jsTrim (s : String) : String :=
  ⟨((s.data.dropWhile Char.isWhitespace).reverse.dropWhile
      Char.isWhitespace).reverse⟩

/-- One element of a ToolResult's `content` array.  In the source the
`type` field is always the literal `"text"`. -/
structure ContentFragment where
  type : String
  text : String
deriving DecidableEq

/-- The uniform output shape of every tool handler. -/
structure ToolResult where
  content : List ContentFragment
deriving DecidableEq

/-- The error convention of §7 of the spec: the result's content is a
single text fragment whose text begins with `"Error:"`. -/
def isSingleErrorFragment (r : ToolResult) : Prop :=
  ∃ rest, r.content = [⟨"text", "Error:" ++ rest⟩]

/-! ### JavaScript object-literal semantics (ordered string-keyed maps)

An object literal such as `{ index, ...queryBody, highlight: ... }`
assigns keys in textual order; a later assignment to an existing key
overwrites its value in place (the key keeps its original position).
We model objects as association lists with this assignment operation. -/

/-- Assign key `k` to value `v` in the object `fields`: overwrite in place
if present (keys of a JavaScript object are unique, so the first occurrence
is the only one), append otherwise. -/
def objAssign : List (String × Json) → String → Json → List (String × Json)
  | [], k, v => [(k, v)]
  | p :: rest, k, v => if p.1 = k then (k, v) :: rest else p :: objAssign rest k v

/-- Property lookup on a modelled object. -/
def objLookup (fields : List (String × Json)) (k : String) : Option Json :=
  (fields.find? (fun p => p.1 = k)).map Prod.snd

/-! ### The search request merge (src/index.ts lines 232-236)

```
const searchRequest: estypes.SearchRequest = {
  index,
  ...queryBody,
  highlight: { fields: { "*": {} } },
};
```
-/

/-- The fixed highlighting directive `{ fields: { "*": {} } }`. -/
def highlightDirective : Json :=
  .obj [("fields", .obj [("*", .obj [])])]

/-- The `searchRequest` object literal: assign `index`, then spread
`queryBody` (assigning each of its entries in order), then assign
`highlight`. -/
def buildSearchRequest (index : String) (queryBody : List (String × Json)) :
    List (String × Json) :=
  objAssign
    (queryBody.foldl (fun acc p => objAssign acc p.1 p.2)
      [("index", Json.str index)])
    "highlight" highlightDirective

/-! ### The `list_indices` handler (src/index.ts lines 97-151) -/

/-- A raw entry of the backend's index catalog (`esClient.cat.indices`).
The projection in the handler reads exactly the four fields `index`,
`health`, `status`, `docsCount`; `extraFields` stands for everything else
a raw catalog entry carries, which the projection discards. -/
structure RawIndex where
  index : String
  health : String
  status : String
  docsCount : Option Int
  extraFields : List (String × Json)

/-- The projected shape stored in the cache (object literal at
src/index.ts lines 123-128). -/
structure IndexSummary where
  index : String
  health : String
  status : String
  docsCount : Option Int

/-- `response.map((index) => ({index: ..., health: ..., status: ...,
docsCount: ...}))`. -/
def projectIndex (r : RawIndex) : IndexSummary :=
  { index := r.index, health := r.health, status := r.status,
    docsCount := r.docsCount }

/-- The JSON value that `JSON.stringify(cachedIndices, null, 2)`
serializes for one cached summary. -/
def IndexSummary.toJson (s : IndexSummary) : Json :=
  .obj [("index", .str s.index), ("health", .str s.health),
        ("status", .str s.status),
        ("docsCount", match s.docsCount with
          | some n => .num n
          | none => Json.null)]

/-- The module-level mutable cache variables `cachedIndices` and
`cacheTimestamp` (src/index.ts lines 4-5).  Timestamps are `Int`
(milliseconds, the value of `Date.now()`). -/
structure CacheState where
  cachedIndices : Option (List IndexSummary)
  cacheTimestamp : Option Int

/-- `const CACHE_DURATION = 600_000` (ms). -/
def CACHE_DURATION : Int := 600000

/-- The cache-validity test
`cachedIndices && cacheTimestamp && now - cacheTimestamp < CACHE_DURATION`
(line 105).  JavaScript truthiness applies: a `null` variable is falsy, and
so is the *number zero* — a `cacheTimestamp` of `0` fails the test even
though a cache entry exists.  Arrays (even empty ones) are truthy. -/
def cacheHit (s : CacheState) (now : Int) : Bool :=
  s.cachedIndices.isSome &&
    (match s.cacheTimestamp with
     | some ts => ts != 0 && now - ts < CACHE_DURATION
     | none => false)

/-- Outcome of one `list_indices` invocation: the ToolResult, the cache
state after the call, and whether the backend catalog fetch was made. -/
structure ListOutcome where
  result : ToolResult
  state : CacheState
  backendCalled : Bool

/-- The `list_indices` handler.  `backend` is the outcome the call
`esClient.cat.indices({format: "json"})` would have if made; it is
consulted only on a cache miss. -/
def listIndices (s : CacheState) (now : Int)
    (backend : Except String (List RawIndex)) : ListOutcome :=
  if cacheHit s now then
    let cached := s.cachedIndices.getD []
    { result := ⟨[⟨"text", "Found " ++ toString cached.length ++ " indices (cached)"⟩,
                  ⟨"text", Json.stringify (.arr (cached.map IndexSummary.toJson))⟩]⟩,
      state := s,
      backendCalled := false }
  else
    match backend with
    | .ok response =>
        let projected := response.map projectIndex
        { result := ⟨[⟨"text", "Found " ++ toString projected.length ++ " indices"⟩,
                      ⟨"text", Json.stringify (.arr (projected.map IndexSummary.toJson))⟩]⟩,
          state := { cachedIndices := some projected, cacheTimestamp := some now },
          backendCalled := true }
    | .error e =>
        { result := ⟨[⟨"text", "Error: " ++ e⟩]⟩,
          state := s,
          backendCalled := true }

/-! ### The `get_mappings` handler (src/index.ts lines 154-204) -/

/-- One per-index record of the backend's `indices.getMapping` response:
its `mappings` property, when present. -/
structure MappingRecord where
  mappings : Option Json

/-- `mappingResponse[index]?.mappings || \x7b\x7d` (lines 179-180):
optional chaining through a possibly-absent per-index record, then `||`
defaulting of a falsy/absent `mappings` value to the empty object. -/
def extractMapping (response : List (String × MappingRecord))
    (index : String) : Json :=
  match (response.find? (fun p => p.1 = index)).map Prod.snd with
  | some r =>
      match r.mappings with
      | some m => if m.truthy then m else Json.obj []
      | none => Json.obj []
  | none => Json.obj []

/-- The `get_mappings` handler.  `backend` is the outcome of
`esClient.indices.getMapping({index})`, a map from index names to
per-index records. -/
def getMappings (index : String)
    (backend : Except String (List (String × MappingRecord))) : ToolResult :=
  match backend with
  | .ok mappingResponse =>
      ⟨[⟨"text", "Mappings for index: " ++ index⟩,
        ⟨"text", "Mappings for index " ++ index ++ ": " ++
          Json.stringify (extractMapping mappingResponse index)⟩]⟩
  | .error e => ⟨[⟨"text", "Error: " ++ e⟩]⟩

/-! ### The `search` handler (src/index.ts lines 208-261) -/

/-- The raw result's total-hits field (`result.hits.total`): the backend
reports it either as a bare number, as an object with an optional numeric
`value` sub-field, or not at all. -/
inductive TotalRep where
  | num (n : Int) : TotalRep
  | obj (value : Option Int) : TotalRep
  | absent : TotalRep

/-- One raw hit; `source` is its `_source` document. -/
structure RawHit where
  source : Json

/-- The `hits` envelope of a raw search result. -/
structure RawHits where
  total : TotalRep
  hits : List RawHit

/-- A raw search result (`result` at line 238). -/
structure RawSearchResult where
  hits : RawHits

/-- The ternary at lines 249-251:
`typeof result.hits.total === "number" ? result.hits.total :
result.hits.total?.value || 0`.  For the object form, `|| 0` maps a falsy
(zero or absent) `value` to `0`. -/
def extractTotal : TotalRep → Int
  | .num n => n
  | .obj (some v) => if v != 0 then v else 0
  | .obj none => 0
  | .absent => 0

/-- `queryBody.from || 0` (line 239): the `from` property of the query
body, with any falsy value (absent, `0`, `""`, `null`, `false`) replaced
by `0`. -/
def fromValue (queryBody : List (String × Json)) : Json :=
  match objLookup queryBody "from" with
  | some j => if j.truthy then j else Json.num 0
  | none => Json.num 0

/-- The body of the `search` handler after a completed backend call
(lines 238-259): on success, one metadata fragment followed by one
fragment per hit; on failure, a single `Error:` fragment. -/
def searchHandler (queryBody : List (String × Json))
    (backend : Except String RawSearchResult) : ToolResult :=
  match backend with
  | .ok result =>
      let contentFragments := result.hits.hits.map
        (fun hit => ContentFragment.mk "text" (Json.stringify hit.source))
      let metadataFragment := ContentFragment.mk "text"
        ("Total results: " ++ toString (extractTotal result.hits.total) ++
         ", showing " ++ toString result.hits.hits.length ++
         " from position " ++ Json.jsToString (fromValue queryBody))
      ⟨metadataFragment :: contentFragments⟩
  | .error e => ⟨[⟨"text", "Error: " ++ e⟩]⟩

/-- A JavaScript value supplied in a query body before validation: either
a JSON-serializable value or a value on which `JSON.stringify` throws
(the spec's example: a circular structure). -/
inductive JsValue where
  | json (j : Json) : JsValue
  | circular : JsValue

/-- Whether `JSON.parse(JSON.stringify(val))` succeeds on this value. -/
def JsValue.serializable : JsValue → Bool
  | .json _ => true
  | .circular => false

def JsValue.toJson : JsValue → Option Json
  | .json j => some j
  | .circular => none

/-- Outcome of one `search` tool invocation: the ToolResult, whether the
backend search was invoked, and the request dispatched to it (if any). -/
structure SearchOutcome where
  result : ToolResult
  backendCalled : Bool
  request : Option (List (String × Json))

/-- The full `search` tool: the registered zod input schema
(`z.string().trim().min(1)` for `index`; the JSON round-trip `refine` for
`queryBody`, lines 211-228) runs before the handler; the handler then
builds `searchRequest` and calls the backend.

Modelled from the spec: the conversion of a schema-validation failure
into an error ToolResult (`Error:`-prefixed single text fragment) is
performed by the tool-registration wrapper of the MCP SDK, outside
src/; the spec states that validation failures are "caught before any
backend call; reported as a ToolResult error fragment". -/
def searchTool (index : String) (queryBody : List (String × JsValue))
    (backend : Except String RawSearchResult) : SearchOutcome :=
  if (jsTrim index).length = 0 then
    { result := ⟨[⟨"text", "Error: Exact index name is required."⟩]⟩,
      backendCalled := false, request := none }
  else if ¬ queryBody.all (fun p => p.2.serializable) then
    { result := ⟨[⟨"text", "Error: queryBody must be a valid Elasticsearch query DSL object"⟩]⟩,
      backendCalled := false, request := none }
  else
    let qb := queryBody.filterMap
      (fun p => (p.2.toJson).map (fun j => (p.1, j)))
    { result := searchHandler qb backend,
      backendCalled := true,
      request := some (buildSearchRequest (jsTrim index) qb) }

/-- The pagination offset as the spec describes it (§4.4): "the
pagination offset requested by the caller (default 0 if the caller's
query did not specify one)".  Stated from the spec's words, to be
compared with the handler's `queryBody.from || 0`. -/
def requestedFromSpec (queryBody : List (String × Json)) : Int :=
  match objLookup queryBody "from" with
  | some (Json.num n) => n
  | _ => 0

/-! ## Lemmas about `objAssign` / `objLookup` and the spread fold -/

theorem objLookup_objAssign_self (fields : List (String × Json)) (k : String)
    (v : Json) : objLookup (objAssign fields k v) k = some v := by
  induction fields with
  | nil => simp [objAssign, objLookup, List.find?]
  | cons p rest ih =>
      by_cases hp : p.1 = k
      · simp [objAssign, objLookup, List.find?, hp]
      · simp only [objAssign, if_neg hp]
        simpa [objLookup, List.find?, hp] using ih

theorem objLookup_objAssign_other (fields : List (String × Json))
    (k k' : String) (v : Json) (hne : k' ≠ k) :
    objLookup (objAssign fields k v) k' = objLookup fields k' := by
  have hkk : ¬ k = k' := fun hc => hne hc.symm
  induction fields with
  | nil => simp [objAssign, objLookup, List.find?, hkk]
  | cons p rest ih =>
      by_cases hp : p.1 = k
      · have hp' : ¬ p.1 = k' := fun hc => hne (by rw [← hc, hp])
        simp [objAssign, objLookup, List.find?, hp, hp', hkk]
      · by_cases hp' : p.1 = k'
        · simp [objAssign, objLookup, List.find?, hp, hp', hne]
        · simp only [objAssign, if_neg hp]
          simpa [objLookup, List.find?, hp'] using ih

theorem objLookup_spreadFold_of_not_mem (qb : List (String × Json))
    (k : String) :
    ∀ init : List (String × Json), k ∉ qb.map Prod.fst →
      objLookup (qb.foldl (fun acc p => objAssign acc p.1 p.2) init) k =
        objLookup init k := by
  induction qb with
  | nil => intro init _; rfl
  | cons p rest ih =>
      intro init hk
      simp only [List.map_cons, List.mem_cons] at hk
      push_neg at hk
      simp only [List.foldl_cons]
      rw [ih _ hk.2, objLookup_objAssign_other _ _ _ _ hk.1]

theorem objLookup_spreadFold_of_mem (qb : List (String × Json))
    (k : String) (v : Json) :
    ∀ init : List (String × Json), (qb.map Prod.fst).Nodup → (k, v) ∈ qb →
      objLookup (qb.foldl (fun acc p => objAssign acc p.1 p.2) init) k =
        some v := by
  induction qb with
  | nil => intro init _ hmem; cases hmem
  | cons p rest ih =>
      intro init hnd hmem
      simp only [List.map_cons, List.nodup_cons] at hnd
      simp only [List.foldl_cons]
      rcases List.mem_cons.mp hmem with heq | hmem'
      · have hkp : k = p.1 := congrArg Prod.fst heq
        have hk : k ∉ rest.map Prod.fst := by rw [hkp]; exact hnd.1
        rw [objLookup_spreadFold_of_not_mem _ _ _ hk, ← heq]
        exact objLookup_objAssign_self init k v
      · exact ih _ hnd.2 hmem'

/-! ## Claim theorems -/

/-- C10: for every search invocation and every queryBody — including a
queryBody that itself supplies a `"highlight"` key — the request
dispatched to the backend carries `highlight = {fields: {"*": {}}}`; the
caller's own highlight field is always overwritten and never takes
effect (the literal assigns `highlight` after spreading `queryBody`). -/
theorem searchRequest_highlight_always_fixed (index : String)
    (queryBody : List (String × Json)) :
    objLookup (buildSearchRequest index queryBody) "highlight" =
      some highlightDirective :=
  objLookup_objAssign_self _ _ _

/-- C2 counterexample: the claim "a key `index` inside the queryBody
never overrides the explicit parameter" is false.  With explicit index
`"logs"` and queryBody `{index: "other"}`, the effective request carries
`index = "other"`: the spread `...queryBody` is assigned *after* the
explicit `index` property, so the queryBody's value wins. -/
theorem searchRequest_index_override_cex :
    objLookup (buildSearchRequest "logs" [("index", Json.str "other")])
        "index" = some (Json.str "other") ∧
      Json.str "other" ≠ Json.str "logs" := by
  refine ⟨rfl, fun h => ?_⟩
  injection h with h'
  exact absurd h' (by decide)

/-- C2 amended: caller-supplied queryBody fields take precedence for
every key of the request envelope except `highlight` — *including*
`index`; the explicitly supplied index name reaches the request only
when the queryBody itself carries no `"index"` key. -/
theorem searchRequest_merge_amended (index : String)
    (queryBody : List (String × Json))
    (hnd : (queryBody.map Prod.fst).Nodup) :
    (∀ k v, (k, v) ∈ queryBody → k ≠ "highlight" →
        objLookup (buildSearchRequest index queryBody) k = some v) ∧
    ("index" ∉ queryBody.map Prod.fst →
        objLookup (buildSearchRequest index queryBody) "index" =
          some (Json.str index)) := by
  constructor
  · intro k v hmem hk
    unfold buildSearchRequest
    rw [objLookup_objAssign_other _ _ _ _ hk,
      objLookup_spreadFold_of_mem _ _ _ _ hnd hmem]
  · intro hidx
    unfold buildSearchRequest
    rw [objLookup_objAssign_other _ _ _ _ (by decide : "index" ≠ "highlight"),
      objLookup_spreadFold_of_not_mem _ _ _ hidx]
    rfl

/-- Witness for the amended C2 at a concrete input. -/
theorem searchRequest_merge_amended_witness :
    ((["size"] : List String).Nodup ∧
      ("size", Json.num 5) ∈ [("size", Json.num 5)] ∧
      "size" ≠ "highlight" ∧
      "index" ∉ ["size"]) ∧
    objLookup (buildSearchRequest "logs" [("size", Json.num 5)]) "size" =
      some (Json.num 5) ∧
    objLookup (buildSearchRequest "logs" [("size", Json.num 5)]) "index" =
      some (Json.str "logs") := by
  refine ⟨⟨by decide, List.mem_singleton.mpr rfl, by decide, by decide⟩, ?_, ?_⟩
  · exact (searchRequest_merge_amended "logs" [("size", Json.num 5)]
      (by simp)).1 "size" (Json.num 5) (List.mem_singleton.mpr rfl) (by decide)
  · exact (searchRequest_merge_amended "logs" [("size", Json.num 5)]
      (by simp)).2 (by decide)

/-- C6: the normalized metadata reports as total the total-hits field
itself when it is a bare number, its `value` sub-field when it is an
object carrying one, and 0 when it is absent; and the metadata fragment
of a successful search interpolates exactly this extracted total. -/
theorem search_total_extraction (n : Int) (r : TotalRep)
    (hits : List RawHit) (queryBody : List (String × Json)) :
    extractTotal (TotalRep.num n) = n ∧
    extractTotal (TotalRep.obj (some n)) = n ∧
    extractTotal TotalRep.absent = 0 ∧
    (searchHandler queryBody (Except.ok ⟨⟨r, hits⟩⟩)).content.head? =
      some ⟨"text",
        "Total results: " ++ toString (extractTotal r) ++
        ", showing " ++ toString hits.length ++
        " from position " ++ Json.jsToString (fromValue queryBody)⟩ := by
  refine ⟨rfl, ?_, rfl, ?_⟩
  · by_cases hn : n = 0
    · subst hn; rfl
    · simp [extractTotal, bne_iff_ne, hn]
  · simp [searchHandler]

/-- C9: a `get_mappings` call for an index whose mapping data is absent
in the backend response succeeds: two text fragments, a header naming
the index and a second fragment whose serialized mapping is the empty
object literal. -/
theorem get_mappings_absent_empty_object (index : String)
    (response : List (String × MappingRecord))
    (habs : response.find? (fun p => p.1 = index) = none) :
    getMappings index (Except.ok response) =
      ⟨[⟨"text", "Mappings for index: " ++ index⟩,
        ⟨"text", "Mappings for index " ++ index ++ ": " ++ "\x7b\x7d"⟩]⟩ := by
  have h2 : extractMapping response index = Json.obj [] := by
    unfold extractMapping
    rw [habs]
    exact rfl
  show ToolResult.mk
      [⟨"text", "Mappings for index: " ++ index⟩,
       ⟨"text", "Mappings for index " ++ index ++ ": " ++
         Json.stringify (extractMapping response index)⟩] = _
  rw [h2]
  exact rfl

/-- C7: on a successful search the returned content is exactly the
metadata fragment "Total results: {total}, showing {N} from position
{from}" — N the number of hits, from the caller's requested pagination
offset (0 when the query did not specify one) — followed by one fragment
per hit, in backend order, each the hit's source document serialized as
JSON. -/
theorem search_success_content (queryBody : List (String × Json))
    (result : RawSearchResult)
    (hfrom : objLookup queryBody "from" = none ∨
      ∃ n : Int, objLookup queryBody "from" = some (Json.num n)) :
    searchHandler queryBody (Except.ok result) =
      ⟨ContentFragment.mk "text"
          ("Total results: " ++ toString (extractTotal result.hits.total) ++
           ", showing " ++ toString result.hits.hits.length ++
           " from position " ++ toString (requestedFromSpec queryBody)) ::
        result.hits.hits.map
          (fun hit => ContentFragment.mk "text" (Json.stringify hit.source))⟩ := by
  have hs : Json.jsToString (fromValue queryBody) =
      toString (requestedFromSpec queryBody) := by
    rcases hfrom with h | ⟨n, h⟩
    · simp [fromValue, requestedFromSpec, h, Json.jsToString]
    · by_cases hn : n = 0
      · subst hn
        simp [fromValue, requestedFromSpec, h, Json.truthy, Json.jsToString]
      · simp [fromValue, requestedFromSpec, h, Json.truthy, Json.jsToString,
          bne_iff_ne, hn]
  simp [searchHandler, hs]

/-- Witness for C7 at a concrete input (one hit, bare total 42,
`from: 3` requested by the caller). -/
theorem search_success_content_witness :
    (objLookup [("from", Json.num 3)] "from" = none ∨
      ∃ n : Int, objLookup [("from", Json.num 3)] "from" =
        some (Json.num n)) ∧
    searchHandler [("from", Json.num 3)]
        (Except.ok ⟨⟨TotalRep.num 42, [⟨Json.obj []⟩]⟩⟩) =
      ⟨ContentFragment.mk "text"
          ("Total results: " ++ toString (extractTotal (TotalRep.num 42)) ++
           ", showing " ++ toString [(⟨Json.obj []⟩ : RawHit)].length ++
           " from position " ++
           toString (requestedFromSpec [("from", Json.num 3)])) ::
        [(⟨Json.obj []⟩ : RawHit)].map
          (fun hit => ContentFragment.mk "text" (Json.stringify hit.source))⟩ :=
  ⟨Or.inr ⟨3, rfl⟩,
    search_success_content [("from", Json.num 3)]
      ⟨⟨TotalRep.num 42, [⟨Json.obj []⟩]⟩⟩ (Or.inr ⟨3, rfl⟩)⟩

/-- C5: if the backend catalog fetch performed by a `list_indices`
refresh fails, the cache state is exactly what it was before the call
and the call returns the error ToolResult. -/
theorem list_indices_backend_failure_preserves_cache (s : CacheState)
    (now : Int) (e : String) (hmiss : cacheHit s now = false) :
    (listIndices s now (Except.error e)).state = s ∧
    (listIndices s now (Except.error e)).result =
      ⟨[⟨"text", "Error: " ++ e⟩]⟩ := by
  simp [listIndices, hmiss]

/-- Witness for C5: stale cache entry (timestamp 1, call at 700001). -/
theorem list_indices_backend_failure_preserves_cache_witness :
    cacheHit ⟨some [], some 1⟩ 700001 = false ∧
    ((listIndices ⟨some [], some 1⟩ 700001
        (Except.error "network error")).state = ⟨some [], some 1⟩ ∧
     (listIndices ⟨some [], some 1⟩ 700001
        (Except.error "network error")).result =
       ⟨[⟨"text", "Error: " ++ "network error"⟩]⟩) :=
  ⟨by decide,
    list_indices_backend_failure_preserves_cache ⟨some [], some 1⟩ 700001
      "network error" (by decide)⟩

/-- C4: a `list_indices` call at least `CACHE_DURATION` after the last
refresh (or with no cache entry) performs the backend catalog fetch,
replaces the cache slot wholesale with the projected sequence and the
current timestamp, and returns the count fragment without the
`" (cached)"` suffix. -/
theorem list_indices_refresh (s : CacheState) (now : Int)
    (raws : List RawIndex)
    (hcond : (∃ t, s.cacheTimestamp = some t ∧ CACHE_DURATION ≤ now - t) ∨
      s.cachedIndices = none ∨ s.cacheTimestamp = none) :
    (listIndices s now (Except.ok raws)).backendCalled = true ∧
    (listIndices s now (Except.ok raws)).state =
      ⟨some (raws.map projectIndex), some now⟩ ∧
    (listIndices s now (Except.ok raws)).result =
      ⟨[⟨"text", "Found " ++ toString (raws.map projectIndex).length ++
          " indices"⟩,
        ⟨"text", Json.stringify
          (Json.arr ((raws.map projectIndex).map IndexSummary.toJson))⟩]⟩ := by
  have hmiss : cacheHit s now = false := by
    rcases hcond with ⟨t, hts, hge⟩ | hnone | hnone
    · have hlt : ¬ (now - t < CACHE_DURATION) := not_lt.mpr hge
      simp [cacheHit, hts, hlt]
    · simp [cacheHit, hnone]
    · simp [cacheHit, hnone]
  simp [listIndices, hmiss]

/-- Witness for C4: empty initial cache, one raw catalog entry whose
extra field is discarded by the projection. -/
theorem list_indices_refresh_witness :
    ((⟨none, none⟩ : CacheState).cachedIndices = none) ∧
    ((listIndices ⟨none, none⟩ 5
        (Except.ok [⟨"logs", "green", "open", some 12,
          [("uuid", Json.str "u1")]⟩])).backendCalled = true ∧
     (listIndices ⟨none, none⟩ 5
        (Except.ok [⟨"logs", "green", "open", some 12,
          [("uuid", Json.str "u1")]⟩])).state =
       ⟨some ([⟨"logs", "green", "open", some 12,
          [("uuid", Json.str "u1")]⟩].map projectIndex), some 5⟩ ∧
     (listIndices ⟨none, none⟩ 5
        (Except.ok [⟨"logs", "green", "open", some 12,
          [("uuid", Json.str "u1")]⟩])).result =
       ⟨[⟨"text", "Found " ++
            toString ([⟨"logs", "green", "open", some 12,
              [("uuid", Json.str "u1")]⟩].map projectIndex).length ++
            " indices"⟩,
         ⟨"text", Json.stringify (Json.arr
            (([⟨"logs", "green", "open", some 12,
              [("uuid", Json.str "u1")]⟩].map projectIndex).map
              IndexSummary.toJson))⟩]⟩) :=
  ⟨rfl, list_indices_refresh ⟨none, none⟩ 5
    [⟨"logs", "green", "open", some 12, [("uuid", Json.str "u1")]⟩]
    (Or.inr (Or.inl rfl))⟩

/-- C3 counterexample: the claim quantifies over every refresh time `t`,
but at `t = 0` (the epoch instant, the one value `Date.now()` could in
principle produce for which the numeric timestamp is falsy) the
truthiness test `cacheTimestamp && ...` treats the cache entry as
absent: a first call at time 0 refreshes successfully and stores
timestamp 0, yet the next call 1 ms later calls the backend again
instead of returning the cached value. -/
theorem list_indices_cached_claim_cex :
    (listIndices ⟨none, none⟩ 0 (Except.ok [])).state =
      ⟨some [], some 0⟩ ∧
    (listIndices ⟨some [], some 0⟩ 1 (Except.ok [])).backendCalled =
      true :=
  ⟨rfl, rfl⟩

/-- C3 amended: after a successful refresh at any time `t ≠ 0`, every
call at a time `now` with `now - t < CACHE_DURATION` returns the
identical cached sequence with the `" (cached)"`-suffixed count
fragment, leaves the cache state unchanged, and makes no backend
call. -/
theorem list_indices_cache_fresh (l : List IndexSummary) (t now : Int)
    (backend : Except String (List RawIndex))
    (ht : t ≠ 0) (hfresh : now - t < CACHE_DURATION) :
    listIndices ⟨some l, some t⟩ now backend =
      ⟨⟨[⟨"text", "Found " ++ toString l.length ++ " indices (cached)"⟩,
         ⟨"text", Json.stringify (Json.arr (l.map IndexSummary.toJson))⟩]⟩,
       ⟨some l, some t⟩, false⟩ := by
  have hhit : cacheHit ⟨some l, some t⟩ now = true := by
    simp [cacheHit, bne_iff_ne, ht, hfresh]
  simp [listIndices, hhit]

/-- Witness for the amended C3: refresh at time 5, second call at time
10 with a pending backend error that is never consulted. -/
theorem list_indices_cache_fresh_witness :
    ((5 : Int) ≠ 0 ∧ (10 : Int) - 5 < CACHE_DURATION) ∧
    listIndices ⟨some [⟨"logs", "green", "open", some 12⟩], some 5⟩ 10
        (Except.error "unreachable") =
      ⟨⟨[⟨"text", "Found " ++
            toString [(⟨"logs", "green", "open", some 12⟩ :
              IndexSummary)].length ++ " indices (cached)"⟩,
         ⟨"text", Json.stringify (Json.arr
            ([(⟨"logs", "green", "open", some 12⟩ : IndexSummary)].map
              IndexSummary.toJson))⟩]⟩,
       ⟨some [⟨"logs", "green", "open", some 12⟩], some 5⟩, false⟩ :=
  ⟨⟨by decide, by decide⟩,
    list_indices_cache_fresh [⟨"logs", "green", "open", some 12⟩] 5 10
      (Except.error "unreachable") (by decide) (by decide)⟩

/-- Shared lemma: a validation failure makes `searchTool` return an
error ToolResult without consulting the backend. -/
theorem searchTool_validation_aux (index : String)
    (queryBody : List (String × JsValue))
    (backend : Except String RawSearchResult)
    (hbad : index = "" ∨ ¬ queryBody.all (fun p => p.2.serializable)) :
    (searchTool index queryBody backend).backendCalled = false ∧
    (searchTool index queryBody backend).request = none ∧
    isSingleErrorFragment (searchTool index queryBody backend).result := by
  rcases hbad with h | h
  · subst h
    exact ⟨rfl, rfl, ⟨" Exact index name is required.", rfl⟩⟩
  · by_cases h0 : (jsTrim index).length = 0
    · have heq : searchTool index queryBody backend =
          ⟨⟨[⟨"text", "Error: Exact index name is required."⟩]⟩,
            false, none⟩ := by
        simp only [searchTool, if_pos h0]
      rw [heq]
      exact ⟨rfl, rfl, ⟨" Exact index name is required.", rfl⟩⟩
    · have heq : searchTool index queryBody backend =
          ⟨⟨[⟨"text",
              "Error: queryBody must be a valid Elasticsearch query DSL object"⟩]⟩,
            false, none⟩ := by
        simp only [searchTool, if_neg h0, if_pos h]
      rw [heq]
      exact ⟨rfl, rfl,
        ⟨" queryBody must be a valid Elasticsearch query DSL object", rfl⟩⟩

/-- C8: a search invocation with an empty index argument, or whose
queryBody fails the JSON round-trip check, yields an error ToolResult
and the backend search operation is never invoked. -/
theorem search_validation_no_backend (index : String)
    (queryBody : List (String × JsValue))
    (backend : Except String RawSearchResult)
    (hbad : index = "" ∨ ¬ queryBody.all (fun p => p.2.serializable)) :
    (searchTool index queryBody backend).backendCalled = false ∧
    (searchTool index queryBody backend).request = none ∧
    isSingleErrorFragment (searchTool index queryBody backend).result :=
  searchTool_validation_aux index queryBody backend hbad

/-- Witness for C8: empty index name with a circular queryBody value. -/
theorem search_validation_no_backend_witness :
    (("" : String) = "" ∨
      ¬ [("loop", JsValue.circular)].all (fun p => p.2.serializable)) ∧
    ((searchTool "" [("loop", JsValue.circular)]
        (Except.error "unreachable")).backendCalled = false ∧
     (searchTool "" [("loop", JsValue.circular)]
        (Except.error "unreachable")).request = none ∧
     isSingleErrorFragment (searchTool "" [("loop", JsValue.circular)]
        (Except.error "unreachable")).result) :=
  ⟨Or.inl rfl,
    search_validation_no_backend "" [("loop", JsValue.circular)]
      (Except.error "unreachable") (Or.inl rfl)⟩

/-- The source's error texts interpolate after the fixed `"Error:"`
prefix; splitting the space off the literal exhibits the prefix. -/
theorem error_text_split (e : String) :
    "Error: " ++ e = "Error:" ++ (" " ++ e) := by
  rw [← String.append_assoc]; exact rfl

/-- C1: every failure arising inside a tool invocation — a backend error
in any of the three handlers, or a validation error in `search` — is
returned as a structurally valid ToolResult whose content is a single
text fragment whose text begins with `"Error:"`; the modelled handlers
are total functions, so no exception escapes to the transport layer. -/
theorem tool_error_containment (s : CacheState) (now : Int)
    (e1 e2 e3 : String) (index : String)
    (queryBodyJson : List (String × Json))
    (queryBody : List (String × JsValue))
    (backend : Except String RawSearchResult)
    (hmiss : cacheHit s now = false)
    (hbad : index = "" ∨ ¬ queryBody.all (fun p => p.2.serializable)) :
    isSingleErrorFragment (listIndices s now (Except.error e1)).result ∧
    isSingleErrorFragment (getMappings index (Except.error e2)) ∧
    isSingleErrorFragment (searchHandler queryBodyJson (Except.error e3)) ∧
    isSingleErrorFragment (searchTool index queryBody backend).result := by
  refine ⟨⟨" " ++ e1, ?_⟩, ⟨" " ++ e2, ?_⟩, ⟨" " ++ e3, ?_⟩, ?_⟩
  · have hres : (listIndices s now (Except.error e1)).result =
        ⟨[⟨"text", "Error: " ++ e1⟩]⟩ := by
      simp [listIndices, hmiss]
    rw [hres, ← error_text_split e1]
  · rw [← error_text_split e2]
    exact rfl
  · rw [← error_text_split e3]
    exact rfl
  · exact (searchTool_validation_aux index queryBody backend hbad).2.2

/-- Witness for C1 at concrete inputs. -/
theorem tool_error_containment_witness :
    (cacheHit ⟨none, none⟩ 0 = false ∧
      (("" : String) = "" ∨
        ¬ ([] : List (String × JsValue)).all (fun p => p.2.serializable))) ∧
    (isSingleErrorFragment
        (listIndices ⟨none, none⟩ 0 (Except.error "down")).result ∧
     isSingleErrorFragment (getMappings "" (Except.error "down")) ∧
     isSingleErrorFragment (searchHandler [] (Except.error "down")) ∧
     isSingleErrorFragment
        (searchTool "" [] (Except.error "down")).result) :=
  ⟨⟨by decide, Or.inl rfl⟩,
    tool_error_containment ⟨none, none⟩ 0 "down" "down" "down" "" [] []
      (Except.error "down") (by decide) (Or.inl rfl)⟩

/-- Witness for C9 at a concrete input. -/
theorem get_mappings_absent_empty_object_witness :
    (([] : List (String × MappingRecord)).find?
        (fun p => p.1 = "logs") = none) ∧
    getMappings "logs" (Except.ok []) =
      ⟨[⟨"text", "Mappings for index: " ++ "logs"⟩,
        ⟨"text", "Mappings for index " ++ "logs" ++ ": " ++ "\x7b\x7d"⟩]⟩ :=
  ⟨rfl, get_mappings_absent_empty_object "logs" [] rfl⟩

end ESMcp
